import Mathlib

/-!
Shallow embedding of the Recruitment System API (`src/app/app.py`).

The service is a FastAPI application over a MongoDB document store with four
collections (`candidates`, `admins`, `jobs`, `applications`).  We model the
store as explicit lists of typed documents (list order = insertion order,
matching MongoDB natural order for these operations), the store-assigned
ObjectIds as natural numbers handed out by a counter, and each endpoint as a
pure function from the incoming request and the current store state to either
an error response or a success response paired with the next store state.

Errors:  `HTTPException(400, ...)` is `badRequest`, `HTTPException(404, ...)`
is `notFound`, a FastAPI request-validation rejection (e.g. the `Query`
`pattern` on the job-status endpoint, which runs before the handler body) is
`validation` (HTTP 422), and an unhandled Python exception escaping a handler
(e.g. `bson.ObjectId` raising `InvalidId` on a malformed id string) is
`serverError` (HTTP 500).  An erroring request performs no store write, which
the `Except` shape makes structural: only `ok` results carry a next state.
-/

namespace Recruitment

/-- HTTP-level outcome of a request, as in `src/app/app.py`. -/
inductive ApiError where
  | badRequest (detail : String)
  | notFound (detail : String)
  | validation
  | serverError
deriving Repr, DecidableEq

/-- Request body of `POST /candidates/signup` (pydantic model `Candidate`). -/
structure Candidate where
  email : String
  password : String
  name : String
deriving Repr, DecidableEq

/-- Response model `CandidateResponse`.  The source serialises the ObjectId
with `str(...)`; we keep the id as the underlying store id, an injective
simplification of that serialisation. -/
structure CandidateResponse where
  id : Nat
  email : String
  name : String
deriving Repr, DecidableEq

/-- Request body of the two login endpoints (pydantic model `LoginData`). -/
structure LoginData where
  email : String
  password : String
deriving Repr, DecidableEq

/-- Request body of `POST /jobs` and `PUT /jobs/{id}` (pydantic model `Job`). -/
structure Job where
  title : String
  description : String
  department : String
  location : String
  employment_type : String
  salary_range : Option String
  application_deadline : Option String
  required_skills : List String
  additional_info : Option String
deriving Repr, DecidableEq

/-- Response model `JobResponse` (id plus the `Job` fields). -/
structure JobResponse where
  id : Nat
  title : String
  description : String
  department : String
  location : String
  employment_type : String
  salary_range : Option String
  application_deadline : Option String
  required_skills : List String
  additional_info : Option String
deriving Repr, DecidableEq

/-- A document of the `candidates` collection.  `password` records a plaintext
password field when present in the stored document (`signup` inserts
`candidate_in_db.dict(exclude=...)` with the `password` key removed, so it
inserts `none`); `resume_path` is the optional field set by resume upload. -/
structure CandidateDoc where
  _id : Nat
  email : String
  name : String
  hashed_password : String
  password : Option String
  resume_path : Option String
deriving Repr, DecidableEq

/-- A document of the `admins` collection (created out-of-band). -/
structure AdminDoc where
  _id : Nat
  email : String
  hashed_password : String
deriving Repr, DecidableEq

/-- A document of the `jobs` collection.  `status` is absent until the
status-update endpoint sets it. -/
structure JobDoc where
  _id : Nat
  title : String
  description : String
  department : String
  location : String
  employment_type : String
  salary_range : Option String
  application_deadline : Option String
  required_skills : List String
  additional_info : Option String
  status : Option String
deriving Repr, DecidableEq

/-- A document of the `applications` collection. -/
structure ApplicationDoc where
  _id : Nat
  job_id : Nat
  candidate_email : String
deriving Repr, DecidableEq

/-- The document store: the four collections of the `recruitment_system`
database plus the counter from which store-assigned ObjectIds are drawn. -/
structure DBState where
  candidates : List CandidateDoc
  admins : List AdminDoc
  jobs : List JobDoc
  applications : List ApplicationDoc
  nextId : Nat
deriving Repr, DecidableEq

/-- Hex digit test for ObjectId strings (`bson.ObjectId` accepts both cases). -/
def isHexChar (c : Char) : Bool :=
  c.isDigit || (Char.ofNat 97 ≤ c && c ≤ Char.ofNat 102) ||
    (Char.ofNat 65 ≤ c && c ≤ Char.ofNat 70)

/-- Numeric value of a hex digit. -/
def hexVal (c : Char) : Nat :=
  if c.isDigit then c.toNat - 48
  else if Char.ofNat 97 ≤ c then c.toNat - 97 + 10
  else c.toNat - 65 + 10

/-- Conversion `bson.ObjectId(s)`: succeeds exactly on 24-character hex strings and
yields the store id they denote; on any other string the constructor raises
`InvalidId`, modelled as `none`. -/
def parseObjectId (s : String) : Option Nat :=
  if s.length = 24 ∧ s.data.all isHexChar then
    some (s.data.foldl (fun acc c => 16 * acc + hexVal c) 0)
  else none

/-- Modelled from the spec: the password-hashing primitive is the external
`passlib` `CryptContext` (bcrypt), not code under `src/`.  Per spec section
4.1 it is a one-way hash whose verify is deterministic; we model the salt
away and tag well-formed hashes with the bcrypt prefix. -/
def get_password_hash (password : String) : String :=
  "$2b$" ++ password

/-- Modelled from the spec: hash identification step of the external
verify primitive — a string is a recognisable hash exactly when it carries
the bcrypt tag. -/
def parseHash (hashed : String) : Option String :=
  if hashed.data.take 4 = "$2b$".data then some (String.mk (hashed.data.drop 4))
  else none

/-- Modelled from the spec: `verify(plain, hashed)` of the external
password-hashing primitive, which per spec section 4.1 "fails closed
(returns false) on malformed hash input rather than throwing". -/
def verify_password (plain_password hashed_password : String) : Bool :=
  match parseHash hashed_password with
  | none => false
  | some h => plain_password == h

/-- Endpoint `POST /candidates/signup`: reject if a candidate with the email exists,
otherwise hash the password and insert the document with the plaintext
`password` field excluded, returning the new id with the email and name. -/
def signup (st : DBState) (candidate : Candidate) :
    Except ApiError (CandidateResponse × DBState) :=
  match st.candidates.find? (fun c => c.email == candidate.email) with
  | some _ => .error (.badRequest "Email already registered")
  | none =>
    let hashed_password := get_password_hash candidate.password
    let doc : CandidateDoc :=
      { _id := st.nextId, email := candidate.email, name := candidate.name,
        hashed_password := hashed_password, password := none,
        resume_path := none }
    .ok ({ id := st.nextId, email := candidate.email, name := candidate.name },
         { st with candidates := st.candidates ++ [doc],
                   nextId := st.nextId + 1 })

/-- Endpoint `POST /candidates/login`: look up the candidate by email and verify the
password against the stored hash; any failure is the same 400. -/
def login (st : DBState) (login_data : LoginData) : Except ApiError String :=
  match st.candidates.find? (fun c => c.email == login_data.email) with
  | none => .error (.badRequest "Invalid email or password")
  | some candidate =>
    if verify_password login_data.password candidate.hashed_password then
      .ok "Login successful"
    else
      .error (.badRequest "Invalid email or password")

/-- Endpoint `POST /admin/login`: same as candidate login over the `admins`
collection. -/
def admin_login (st : DBState) (login_data : LoginData) :
    Except ApiError String :=
  match st.admins.find? (fun a => a.email == login_data.email) with
  | none => .error (.badRequest "Invalid email or password")
  | some admin =>
    if verify_password login_data.password admin.hashed_password then
      .ok "Admin login successful"
    else
      .error (.badRequest "Invalid email or password")

/-- Endpoint `POST /jobs/{job_id}/apply`: convert the id string (raising on malformed
input), check the job and the candidate exist, then insert one application
document; no deduplication. -/
def apply_for_job (st : DBState) (job_id : String) (candidate_email : String) :
    Except ApiError (String × DBState) :=
  match parseObjectId job_id with
  | none => .error .serverError
  | some oid =>
    match st.jobs.find? (fun j => j._id == oid) with
    | none => .error (.notFound "Job not found")
    | some _ =>
      match st.candidates.find? (fun c => c.email == candidate_email) with
      | none => .error (.notFound "Candidate not found")
      | some _ =>
        .ok ("Job application successful",
             { st with
                 applications := st.applications ++
                   [{ _id := st.nextId, job_id := oid,
                      candidate_email := candidate_email }],
                 nextId := st.nextId + 1 })

/-- Endpoint `POST /candidates/{candidate_id}/resume`: check the candidate exists,
then set its `resume_path` to `resumes/{candidate_id}_{filename}` (the raw
byte write to the filesystem is outside the store model). -/
def upload_resume (st : DBState) (candidate_id : String) (filename : String) :
    Except ApiError (String × DBState) :=
  match parseObjectId candidate_id with
  | none => .error .serverError
  | some oid =>
    match st.candidates.find? (fun c => c._id == oid) with
    | none => .error (.notFound "Candidate not found")
    | some _ =>
      let resume_path := "resumes/" ++ candidate_id ++ "_" ++ filename
      .ok ("Resume uploaded successfully",
           { st with
               candidates := st.candidates.map (fun c =>
                 if c._id == oid then { c with resume_path := some resume_path }
                 else c) })

/-- Endpoint `GET /admin/candidates`: first 100 candidate documents, shaped. -/
def view_candidates (st : DBState) : List CandidateResponse :=
  (st.candidates.take 100).map
    (fun c => { id := c._id, email := c.email, name := c.name })

/-- Endpoint `GET /admin/resumes`: over the first 100 candidate documents, keep those
with a `resume_path` field and return their `(email, resume_path)` pairs. -/
def view_resumes (st : DBState) : List (String × Option String) :=
  ((st.candidates.take 100).filter (fun c => c.resume_path.isSome)).map
    (fun c => (c.email, c.resume_path))

/-- Endpoint `GET /jobs`: first 100 job documents, shaped (extra document keys such as
`status` are dropped by the response model). -/
def get_jobs (st : DBState) : List JobResponse :=
  (st.jobs.take 100).map (fun j =>
    { id := j._id, title := j.title, description := j.description,
      department := j.department, location := j.location,
      employment_type := j.employment_type, salary_range := j.salary_range,
      application_deadline := j.application_deadline,
      required_skills := j.required_skills,
      additional_info := j.additional_info })

/-- Endpoint `GET /jobs/{job_id}`: convert the id string, then find-one by id. -/
def get_job (st : DBState) (job_id : String) : Except ApiError JobResponse :=
  match parseObjectId job_id with
  | none => .error .serverError
  | some oid =>
    match st.jobs.find? (fun j => j._id == oid) with
    | none => .error (.notFound "Job not found")
    | some j =>
      .ok { id := j._id, title := j.title, description := j.description,
            department := j.department, location := j.location,
            employment_type := j.employment_type,
            salary_range := j.salary_range,
            application_deadline := j.application_deadline,
            required_skills := j.required_skills,
            additional_info := j.additional_info }

/-- Endpoint `POST /jobs`: insert the job document (no `status` key) and return it
with the new id. -/
def post_job (st : DBState) (job : Job) : JobResponse × DBState :=
  ({ id := st.nextId, title := job.title, description := job.description,
     department := job.department, location := job.location,
     employment_type := job.employment_type, salary_range := job.salary_range,
     application_deadline := job.application_deadline,
     required_skills := job.required_skills,
     additional_info := job.additional_info },
   { st with
       jobs := st.jobs ++
         [{ _id := st.nextId, title := job.title,
            description := job.description, department := job.department,
            location := job.location, employment_type := job.employment_type,
            salary_range := job.salary_range,
            application_deadline := job.application_deadline,
            required_skills := job.required_skills,
            additional_info := job.additional_info, status := none }],
       nextId := st.nextId + 1 })

/-- Store update `$set` of all `Job` fields on a job document (`status` is not a `Job`
field, so it is preserved). -/
def setJobFields (j : JobDoc) (job : Job) : JobDoc :=
  { j with title := job.title, description := job.description,
           department := job.department, location := job.location,
           employment_type := job.employment_type,
           salary_range := job.salary_range,
           application_deadline := job.application_deadline,
           required_skills := job.required_skills,
           additional_info := job.additional_info }

/-- Endpoint `PUT /jobs/{job_id}`: convert the id string, `$set` every `Job` field on
the matching document, 404 when nothing matched. -/
def update_job (st : DBState) (job_id : String) (job : Job) :
    Except ApiError (JobResponse × DBState) :=
  match parseObjectId job_id with
  | none => .error .serverError
  | some oid =>
    if st.jobs.any (fun j => j._id == oid) then
      .ok ({ id := oid, title := job.title, description := job.description,
             department := job.department, location := job.location,
             employment_type := job.employment_type,
             salary_range := job.salary_range,
             application_deadline := job.application_deadline,
             required_skills := job.required_skills,
             additional_info := job.additional_info },
           { st with
               jobs := st.jobs.map (fun j =>
                 if j._id == oid then setJobFields j job else j) })
    else .error (.notFound "Job not found")

/-- The FastAPI `Query` constraint `pattern="^(Open|Closed|Filled)$"` on the
status parameter: an anchored alternation of the three literals, i.e. exact
match of one of them. -/
def statusPatternOk (status : String) : Bool :=
  status == "Open" || status == "Closed" || status == "Filled"

/-- Endpoint `PUT /jobs/{job_id}/status`: FastAPI validates the `status` query
parameter against the pattern before the handler body runs (422 on
mismatch); the handler then converts the id string, `$set`s the status on
the matching document, and 404s when nothing matched. -/
def update_job_status (st : DBState) (job_id : String) (status : String) :
    Except ApiError (String × DBState) :=
  if ¬ statusPatternOk status then .error .validation
  else
    match parseObjectId job_id with
    | none => .error .serverError
    | some oid =>
      if st.jobs.any (fun j => j._id == oid) then
        .ok ("Job status updated to " ++ status,
             { st with
                 jobs := st.jobs.map (fun j =>
                   if j._id == oid then { j with status := some status }
                   else j) })
      else .error (.notFound "Job not found")

/-- Endpoint `GET /candidates`: first 100 candidate documents, shaped (same body as
`view_candidates`). -/
def get_candidates (st : DBState) : List CandidateResponse :=
  (st.candidates.take 100).map
    (fun c => { id := c._id, email := c.email, name := c.name })

/-- Endpoint `GET /candidates/{candidate_id}`: convert the id string, then find-one
by id. -/
def get_candidate (st : DBState) (candidate_id : String) :
    Except ApiError CandidateResponse :=
  match parseObjectId candidate_id with
  | none => .error .serverError
  | some oid =>
    match st.candidates.find? (fun c => c._id == oid) with
    | none => .error (.notFound "Candidate not found")
    | some c => .ok { id := c._id, email := c.email, name := c.name }

/-! ### The service as a transition system -/

/-- One state transition of the service: a successful run of one of the
store-writing endpoints.  Requests that error, and the read-only endpoints,
leave the store unchanged, so they generate no transition. -/
inductive Step : DBState → DBState → Prop where
  | ofSignup (st : DBState) (cand : Candidate) (r : CandidateResponse)
      (st1 : DBState) : signup st cand = .ok (r, st1) → Step st st1
  | ofApply (st : DBState) (job_id email r : String) (st1 : DBState) :
      apply_for_job st job_id email = .ok (r, st1) → Step st st1
  | ofUpload (st : DBState) (cid filename r : String) (st1 : DBState) :
      upload_resume st cid filename = .ok (r, st1) → Step st st1
  | ofPostJob (st : DBState) (job : Job) : Step st (post_job st job).2
  | ofUpdateJob (st : DBState) (jid : String) (job : Job) (r : JobResponse)
      (st1 : DBState) : update_job st jid job = .ok (r, st1) → Step st st1
  | ofUpdateStatus (st : DBState) (jid status r : String) (st1 : DBState) :
      update_job_status st jid status = .ok (r, st1) → Step st st1

/-- States the service can reach: candidates are created only through the
API (signup), while admins, jobs and applications may be arbitrary at the
start. -/
inductive Reachable : DBState → Prop where
  | init (st : DBState) : st.candidates = [] → Reachable st
  | step (st st1 : DBState) : Reachable st → Step st st1 → Reachable st1

/-- No stored candidate document carries a plaintext `password` field. -/
def NoPlaintextPassword (st : DBState) : Prop :=
  ∀ c ∈ st.candidates, c.password = none

/-! ### Fixture states for witnesses -/

/-- The empty store. -/
def emptyState : DBState :=
  { candidates := [], admins := [], jobs := [], applications := [], nextId := 0 }

/-- The 24-character hex string denoting store id 0. -/
def zeroId : String := "000000000000000000000000"

/-- Fixture signup request. -/
def candA : Candidate := { email := "a@x.com", password := "p1", name := "A" }

/-- The candidate document that signing `candA` up from the empty store
inserts. -/
def cDocA : CandidateDoc :=
  { _id := 0, email := "a@x.com", name := "A",
    hashed_password := get_password_hash "p1", password := none,
    resume_path := none }

/-- The store after signing `candA` up from the empty store. -/
def stAfterSignup : DBState :=
  { candidates := [cDocA], admins := [], jobs := [], applications := [],
    nextId := 1 }

/-- Fixture admin document (admins are created out-of-band). -/
def adminDoc0 : AdminDoc :=
  { _id := 5, email := "root@x.com", hashed_password := get_password_hash "adm" }

/-- Fixture store holding one candidate and one admin. -/
def stLogin : DBState :=
  { candidates := [cDocA], admins := [adminDoc0], jobs := [],
    applications := [], nextId := 6 }

/-- Fixture job document with store id 0. -/
def jobDoc0 : JobDoc :=
  { _id := 0, title := "t", description := "d", department := "dep",
    location := "l", employment_type := "ft", salary_range := none,
    application_deadline := none, required_skills := [],
    additional_info := none, status := none }

/-- Fixture store holding one job and one candidate. -/
def stJobAndCand : DBState :=
  { candidates := [cDocA], admins := [], jobs := [jobDoc0],
    applications := [], nextId := 2 }

/-- State `stJobAndCand` after one successful apply of `a@x.com` to job 0. -/
def stApplied : DBState :=
  { candidates := [cDocA], admins := [], jobs := [jobDoc0],
    applications := [{ _id := 2, job_id := 0, candidate_email := "a@x.com" }],
    nextId := 3 }

/-- Fixture candidate document without a resume. -/
def cNoResume : CandidateDoc :=
  { _id := 0, email := "b@x.com", name := "B",
    hashed_password := get_password_hash "q", password := none,
    resume_path := none }

/-- Fixture candidate document with a resume. -/
def cWithResume : CandidateDoc :=
  { _id := 100, email := "r@x.com", name := "R",
    hashed_password := get_password_hash "r", password := none,
    resume_path := some "resumes/cv.pdf" }

/-- A store with 101 candidate documents where only the 101st has a
resume. -/
def capState : DBState :=
  { candidates := List.replicate 100 cNoResume ++ [cWithResume],
    admins := [], jobs := [], applications := [], nextId := 101 }

/-- A store holding just the candidate with a resume. -/
def stOneResume : DBState :=
  { candidates := [cWithResume], admins := [], jobs := [],
    applications := [], nextId := 101 }

/-! ### Generic helper lemmas -/

/-- When at most one element of the list satisfies the predicate, `find?`
returns exactly the satisfying member. -/
theorem find?_eq_some_of_mem_unique {α : Type} (l : List α) (p : α → Bool)
    (c : α) (hc : c ∈ l) (hpc : p c = true)
    (hu : ∀ c1 ∈ l, ∀ c2 ∈ l, p c1 = true → p c2 = true → c1 = c2) :
    l.find? p = some c := by
  have hsome : (l.find? p).isSome := List.find?_isSome.mpr ⟨c, hc, hpc⟩
  obtain ⟨c1, hc1⟩ := Option.isSome_iff_exists.mp hsome
  have hmem : c1 ∈ l := List.mem_of_find?_eq_some hc1
  have hp1 : p c1 = true := List.find?_some hc1
  rw [hc1, hu c1 hmem c hc hp1 hpc]

/-- Inversion of a successful signup: the candidates collection grows by
one document whose plaintext `password` field is absent. -/
theorem signup_ok_inv (st : DBState) (cand : Candidate) (r : CandidateResponse)
    (st1 : DBState) (h : signup st cand = .ok (r, st1)) :
    ∃ d : CandidateDoc, d.password = none ∧
      st1.candidates = st.candidates ++ [d] := by
  cases hf : st.candidates.find? (fun c => c.email == cand.email) with
  | some c => simp [signup, hf] at h
  | none =>
    simp only [signup, hf, Except.ok.injEq, Prod.mk.injEq] at h
    obtain ⟨hr, hst⟩ := h
    exact ⟨_, rfl, by rw [← hst]⟩

/-- Inversion of a successful apply: the candidates collection is
untouched. -/
theorem apply_ok_inv (st : DBState) (jid em r : String) (st1 : DBState)
    (h : apply_for_job st jid em = .ok (r, st1)) :
    st1.candidates = st.candidates := by
  cases hp : parseObjectId jid with
  | none => simp [apply_for_job, hp] at h
  | some oid =>
    cases hj : st.jobs.find? (fun j => j._id == oid) with
    | none => simp [apply_for_job, hp, hj] at h
    | some j =>
      cases hc : st.candidates.find? (fun c => c.email == em) with
      | none => simp [apply_for_job, hp, hj, hc] at h
      | some c =>
        simp only [apply_for_job, hp, hj, hc, Except.ok.injEq,
          Prod.mk.injEq] at h
        rw [← h.2]

/-- Inversion of a successful resume upload: every stored candidate keeps
the `password` field of some previously stored candidate. -/
theorem upload_ok_inv (st : DBState) (cid fn r : String) (st1 : DBState)
    (h : upload_resume st cid fn = .ok (r, st1)) :
    ∀ c ∈ st1.candidates, ∃ c0 ∈ st.candidates, c.password = c0.password := by
  cases hp : parseObjectId cid with
  | none => simp [upload_resume, hp] at h
  | some oid =>
    cases hc : st.candidates.find? (fun c => c._id == oid) with
    | none => simp [upload_resume, hp, hc] at h
    | some c0 =>
      simp only [upload_resume, hp, hc, Except.ok.injEq, Prod.mk.injEq] at h
      intro c hcmem
      rw [← h.2] at hcmem
      simp only [List.mem_map] at hcmem
      obtain ⟨c1, hc1, hc1e⟩ := hcmem
      refine ⟨c1, hc1, ?_⟩
      rw [← hc1e]
      by_cases hid : (c1._id == oid) = true <;> simp [hid]

/-- Inversion of a successful full job update: candidates untouched. -/
theorem update_job_ok_inv (st : DBState) (jid : String) (job : Job)
    (r : JobResponse) (st1 : DBState)
    (h : update_job st jid job = .ok (r, st1)) :
    st1.candidates = st.candidates := by
  cases hp : parseObjectId jid with
  | none => simp [update_job, hp] at h
  | some oid =>
    by_cases hany : st.jobs.any (fun j => j._id == oid)
    · simp only [update_job, hp, hany, if_true, Except.ok.injEq,
        Prod.mk.injEq] at h
      rw [← h.2]
    · simp [update_job, hp, hany] at h

/-- Inversion of a successful status update: candidates untouched. -/
theorem update_status_ok_inv (st : DBState) (jid status r : String)
    (st1 : DBState) (h : update_job_status st jid status = .ok (r, st1)) :
    st1.candidates = st.candidates := by
  by_cases hpat : statusPatternOk status = true
  · cases hp : parseObjectId jid with
    | none => simp [update_job_status, hpat, hp] at h
    | some oid =>
      by_cases hany : st.jobs.any (fun j => j._id == oid)
      · simp only [update_job_status, hpat, not_true, if_neg, ite_false, hp,
          hany, if_true, Except.ok.injEq, Prod.mk.injEq] at h
        rw [← h.2]
      · simp [update_job_status, hpat, hp, hany] at h
  · simp [update_job_status, hpat] at h

/-! ### Claim theorems -/

/-- C5: for every plain-password string and every malformed (non-hash)
string supplied as the hashed input, credential verification returns
`false` rather than failing. -/
theorem verify_password_fails_closed (plain hashed : String)
    (h : parseHash hashed = none) :
    verify_password plain hashed = false := by
  simp [verify_password, h]

theorem verify_password_fails_closed_witness :
    parseHash "not-a-hash" = none ∧
      verify_password "secret" "not-a-hash" = false :=
  ⟨by decide, verify_password_fails_closed "secret" "not-a-hash" (by decide)⟩

/-- C7: every list endpoint (`ListJobs`, `GetCandidates`, `ViewCandidates`,
`ViewResumes`) returns at most 100 items, whatever the store holds. -/
theorem list_endpoints_capped (st : DBState) :
    (get_jobs st).length ≤ 100 ∧ (get_candidates st).length ≤ 100 ∧
      (view_candidates st).length ≤ 100 ∧ (view_resumes st).length ≤ 100 := by
  refine ⟨?_, ?_, ?_, ?_⟩
  · simp [get_jobs, List.length_take]
  · simp [get_candidates, List.length_take]
  · simp [view_candidates, List.length_take]
  · simp only [view_resumes, List.length_map]
    calc ((st.candidates.take 100).filter (fun c => c.resume_path.isSome)).length
        ≤ (st.candidates.take 100).length := List.length_filter_le _ _
      _ ≤ 100 := by simp [List.length_take]

/-- C4: `UpdateJobStatus` accepts exactly the case-sensitive strings
`Open`, `Closed`, `Filled`: the query pattern holds iff the status is one of
the three, any other value is rejected with a validation error (HTTP 422)
before the handler body — and hence before any store operation — runs, and
every successful run had one of the three values. -/
theorem update_job_status_enum (st : DBState) (job_id status : String) :
    (statusPatternOk status = true ↔
      (status = "Open" ∨ status = "Closed" ∨ status = "Filled")) ∧
    (¬ (status = "Open" ∨ status = "Closed" ∨ status = "Filled") →
      update_job_status st job_id status = .error .validation) ∧
    ((status = "Open" ∨ status = "Closed" ∨ status = "Filled") →
      update_job_status st job_id status ≠ .error .validation) ∧
    (∀ r st1, update_job_status st job_id status = .ok (r, st1) →
      (status = "Open" ∨ status = "Closed" ∨ status = "Filled")) := by
  have hiff : statusPatternOk status = true ↔
      (status = "Open" ∨ status = "Closed" ∨ status = "Filled") := by
    simp [statusPatternOk, or_assoc]
  refine ⟨hiff, ?_, ?_, ?_⟩
  · intro h
    have hpat : ¬ statusPatternOk status = true := fun hc => h (hiff.mp hc)
    simp [update_job_status, hpat]
  · intro h
    have hpat : statusPatternOk status = true := hiff.mpr h
    simp only [update_job_status, hpat, not_true, if_neg, ite_false]
    cases hp : parseObjectId job_id with
    | none => simp
    | some oid =>
      by_cases hany : st.jobs.any (fun j => j._id == oid)
      · simp [hany]
      · simp [hany]
  · intro r st1 hok
    by_contra h
    have hpat : ¬ statusPatternOk status = true := fun hc => h (hiff.mp hc)
    simp [update_job_status, hpat] at hok

theorem update_job_status_enum_witness :
    update_job_status emptyState zeroId "Pending" = .error .validation :=
  (update_job_status_enum emptyState zeroId "Pending").2.1 (by decide)

/-- C10: for an id string that is not a syntactically valid ObjectId, every
id-taking endpoint surfaces the id-conversion failure as a generic server
error rather than NotFound (for `UpdateJobStatus` provided the status value
itself passes validation, which runs first); and each of those endpoints
returns NotFound only when the id string parsed successfully. -/
theorem invalid_id_server_error (st : DBState)
    (s email filename status : String) (job : Job) :
    (parseObjectId s = none →
      get_job st s = .error .serverError ∧
      get_candidate st s = .error .serverError ∧
      apply_for_job st s email = .error .serverError ∧
      upload_resume st s filename = .error .serverError ∧
      update_job st s job = .error .serverError ∧
      (statusPatternOk status = true →
        update_job_status st s status = .error .serverError)) ∧
    (∀ d, get_job st s = .error (.notFound d) → (parseObjectId s).isSome) ∧
    (∀ d, get_candidate st s = .error (.notFound d) → (parseObjectId s).isSome) ∧
    (∀ d, apply_for_job st s email = .error (.notFound d) →
      (parseObjectId s).isSome) ∧
    (∀ d, upload_resume st s filename = .error (.notFound d) →
      (parseObjectId s).isSome) ∧
    (∀ d, update_job st s job = .error (.notFound d) →
      (parseObjectId s).isSome) ∧
    (∀ d, update_job_status st s status = .error (.notFound d) →
      (parseObjectId s).isSome) := by
  refine ⟨?_, ?_, ?_, ?_, ?_, ?_, ?_⟩
  · intro hp
    refine ⟨?_, ?_, ?_, ?_, ?_, ?_⟩
    · simp [get_job, hp]
    · simp [get_candidate, hp]
    · simp [apply_for_job, hp]
    · simp [upload_resume, hp]
    · simp [update_job, hp]
    · intro hpat
      simp [update_job_status, hpat, hp]
  · intro d h
    cases hp : parseObjectId s with
    | none => simp [get_job, hp] at h
    | some oid => simp
  · intro d h
    cases hp : parseObjectId s with
    | none => simp [get_candidate, hp] at h
    | some oid => simp
  · intro d h
    cases hp : parseObjectId s with
    | none => simp [apply_for_job, hp] at h
    | some oid => simp
  · intro d h
    cases hp : parseObjectId s with
    | none => simp [upload_resume, hp] at h
    | some oid => simp
  · intro d h
    cases hp : parseObjectId s with
    | none => simp [update_job, hp] at h
    | some oid => simp
  · intro d h
    cases hp : parseObjectId s with
    | none =>
      by_cases hpat : statusPatternOk status = true
      · simp [update_job_status, hpat, hp] at h
      · simp [update_job_status, hpat] at h
    | some oid => simp

theorem invalid_id_server_error_witness :
    get_job emptyState "not-an-objectid" = .error .serverError ∧
      apply_for_job emptyState "not-an-objectid" "a@x.com" =
        .error .serverError :=
  ⟨((invalid_id_server_error emptyState "not-an-objectid" "a@x.com" "f.pdf"
      "Open" { title := "t", description := "d", department := "dep",
               location := "l", employment_type := "ft", salary_range := none,
               application_deadline := none, required_skills := [],
               additional_info := none }).1 (by decide)).1,
   ((invalid_id_server_error emptyState "not-an-objectid" "a@x.com" "f.pdf"
      "Open" { title := "t", description := "d", department := "dep",
               location := "l", employment_type := "ft", salary_range := none,
               application_deadline := none, required_skills := [],
               additional_info := none }).1 (by decide)).2.2.1⟩

/-- C1: signup rejects an already-registered email with the 400 conflict
error and inserts nothing (an erroring request carries no next state);
otherwise it inserts exactly one document holding the email, the name and
the password hash, and returns the newly assigned id with the given email
and name.  Signing up a second time with the same email is then rejected
and exactly one stored candidate carries that email. -/
theorem signup_conflict_or_insert (st : DBState) (cand : Candidate) :
    ((∃ c ∈ st.candidates, c.email = cand.email) →
      signup st cand = .error (.badRequest "Email already registered")) ∧
    ((∀ c ∈ st.candidates, c.email ≠ cand.email) →
      signup st cand = .ok
        ({ id := st.nextId, email := cand.email, name := cand.name },
         { st with
             candidates := st.candidates ++
               [{ _id := st.nextId, email := cand.email, name := cand.name,
                  hashed_password := get_password_hash cand.password,
                  password := none, resume_path := none }],
             nextId := st.nextId + 1 })) ∧
    ((∀ c ∈ st.candidates, c.email ≠ cand.email) →
      ∀ r st1, signup st cand = .ok (r, st1) →
        signup st1 cand = .error (.badRequest "Email already registered") ∧
        (st1.candidates.filter (fun c => c.email == cand.email)).length = 1) := by
  have hpred : ∀ c : CandidateDoc,
      ((fun c => c.email == cand.email) c = true) ↔ c.email = cand.email := by
    intro c; simp
  refine ⟨?_, ?_, ?_⟩
  · rintro ⟨c, hc, hce⟩
    have hsome : (st.candidates.find? (fun c => c.email == cand.email)).isSome :=
      List.find?_isSome.mpr ⟨c, hc, (hpred c).mpr hce⟩
    obtain ⟨c1, hc1⟩ := Option.isSome_iff_exists.mp hsome
    simp [signup, hc1]
  · intro hnone
    have hfind : st.candidates.find? (fun c => c.email == cand.email) = none :=
      List.find?_eq_none.mpr (fun c hc => by simp [hnone c hc])
    simp [signup, hfind]
  · intro hnone r st1 hok
    have hfind : st.candidates.find? (fun c => c.email == cand.email) = none :=
      List.find?_eq_none.mpr (fun c hc => by simp [hnone c hc])
    rw [signup, hfind] at hok
    simp only [Except.ok.injEq, Prod.mk.injEq] at hok
    obtain ⟨hr, hst⟩ := hok
    subst hst
    constructor
    · simp [signup, List.find?_append, hfind, List.find?]
    · have hfilter : st.candidates.filter (fun c => c.email == cand.email) = [] :=
        List.filter_eq_nil_iff.mpr (fun c hc => by simp [hnone c hc])
      simp [List.filter_append, hfilter, List.filter]

theorem signup_conflict_or_insert_witness :
    signup stAfterSignup candA = .error (.badRequest "Email already registered") ∧
      (stAfterSignup.candidates.filter
        (fun c => c.email == candA.email)).length = 1 :=
  (signup_conflict_or_insert emptyState candA).2.2 (by simp [emptyState])
    { id := 0, email := "a@x.com", name := "A" } stAfterSignup
    ((signup_conflict_or_insert emptyState candA).2.1 (by simp [emptyState]))

/-- C2: candidate login succeeds exactly when a candidate document carries
the given email (unique in the collection, as signup enforces) and the
stored hash verifies against the supplied password; every other outcome is
the single 400 error.  The same holds for admin login over the `admins`
collection. -/
theorem login_verifies (st : DBState) (ld : LoginData)
    (hu : ∀ c1 ∈ st.candidates, ∀ c2 ∈ st.candidates,
      c1.email = ld.email → c2.email = ld.email → c1 = c2)
    (ha : ∀ a1 ∈ st.admins, ∀ a2 ∈ st.admins,
      a1.email = ld.email → a2.email = ld.email → a1 = a2) :
    (login st ld = .ok "Login successful" ↔
      ∃ c ∈ st.candidates, c.email = ld.email ∧
        verify_password ld.password c.hashed_password = true) ∧
    (login st ld ≠ .ok "Login successful" →
      login st ld = .error (.badRequest "Invalid email or password")) ∧
    (admin_login st ld = .ok "Admin login successful" ↔
      ∃ a ∈ st.admins, a.email = ld.email ∧
        verify_password ld.password a.hashed_password = true) ∧
    (admin_login st ld ≠ .ok "Admin login successful" →
      admin_login st ld = .error (.badRequest "Invalid email or password")) := by
  refine ⟨?_, ?_, ?_, ?_⟩
  · constructor
    · intro hok
      cases hf : st.candidates.find? (fun c => c.email == ld.email) with
      | none => simp [login, hf] at hok
      | some c =>
        refine ⟨c, List.mem_of_find?_eq_some hf, by simpa using List.find?_some hf, ?_⟩
        by_cases hv : verify_password ld.password c.hashed_password
        · exact hv
        · simp [login, hf, hv] at hok
    · rintro ⟨c, hc, hce, hv⟩
      have hf : st.candidates.find? (fun c => c.email == ld.email) = some c :=
        find?_eq_some_of_mem_unique _ _ c hc (by simpa using hce)
          (fun c1 h1 c2 h2 hp1 hp2 =>
            hu c1 h1 c2 h2 (by simpa using hp1) (by simpa using hp2))
      simp [login, hf, hv]
  · intro hne
    cases hf : st.candidates.find? (fun c => c.email == ld.email) with
    | none => simp [login, hf]
    | some c =>
      by_cases hv : verify_password ld.password c.hashed_password
      · exact absurd (by simp [login, hf, hv]) hne
      · simp [login, hf, hv]
  · constructor
    · intro hok
      cases hf : st.admins.find? (fun a => a.email == ld.email) with
      | none => simp [admin_login, hf] at hok
      | some a =>
        refine ⟨a, List.mem_of_find?_eq_some hf, by simpa using List.find?_some hf, ?_⟩
        by_cases hv : verify_password ld.password a.hashed_password
        · exact hv
        · simp [admin_login, hf, hv] at hok
    · rintro ⟨a, hamem, hae, hv⟩
      have hf : st.admins.find? (fun a => a.email == ld.email) = some a :=
        find?_eq_some_of_mem_unique _ _ a hamem (by simpa using hae)
          (fun a1 h1 a2 h2 hp1 hp2 =>
            ha a1 h1 a2 h2 (by simpa using hp1) (by simpa using hp2))
      simp [admin_login, hf, hv]
  · intro hne
    cases hf : st.admins.find? (fun a => a.email == ld.email) with
    | none => simp [admin_login, hf]
    | some a =>
      by_cases hv : verify_password ld.password a.hashed_password
      · exact absurd (by simp [admin_login, hf, hv]) hne
      · simp [admin_login, hf, hv]

theorem login_verifies_witness :
    login stLogin { email := "a@x.com", password := "p1" } =
        .ok "Login successful" ∧
      admin_login stLogin { email := "root@x.com", password := "wrong" } =
        .error (.badRequest "Invalid email or password") := by
  have h1 := login_verifies stLogin { email := "a@x.com", password := "p1" }
    (by decide) (by decide)
  have h2 := login_verifies stLogin { email := "root@x.com", password := "wrong" }
    (by decide) (by decide)
  refine ⟨h1.1.mpr ⟨cDocA, by decide, by decide, by decide⟩, h2.2.2.2 ?_⟩
  intro hok
  obtain ⟨a, hamem, hae, hav⟩ := h2.2.2.1.mp hok
  have haeq : a = adminDoc0 := by
    have : a ∈ [adminDoc0] := hamem
    simpa using this
  subst haeq
  exact absurd hav (by decide)

/-- C3: with a well-formed job id, Apply 404s when the id matches no job
document, 404s when the job exists but the email matches no candidate
document (and, the result being an error, inserts nothing — an erroring
request carries no next state), and on success inserts exactly one
application document holding the job id and the candidate email. -/
theorem apply_not_found_or_insert (st : DBState)
    (job_id candidate_email : String) (oid : Nat)
    (hp : parseObjectId job_id = some oid) :
    ((∀ j ∈ st.jobs, j._id ≠ oid) →
      apply_for_job st job_id candidate_email =
        .error (.notFound "Job not found")) ∧
    ((∃ j ∈ st.jobs, j._id = oid) →
      (∀ c ∈ st.candidates, c.email ≠ candidate_email) →
      apply_for_job st job_id candidate_email =
        .error (.notFound "Candidate not found")) ∧
    ((∃ j ∈ st.jobs, j._id = oid) →
      (∃ c ∈ st.candidates, c.email = candidate_email) →
      apply_for_job st job_id candidate_email =
        .ok ("Job application successful",
          { st with
              applications := st.applications ++
                [{ _id := st.nextId, job_id := oid,
                   candidate_email := candidate_email }],
              nextId := st.nextId + 1 })) := by
  refine ⟨?_, ?_, ?_⟩
  · intro hnoj
    have hfj : st.jobs.find? (fun j => j._id == oid) = none :=
      List.find?_eq_none.mpr (fun j hj => by simp [hnoj j hj])
    simp [apply_for_job, hp, hfj]
  · rintro ⟨j, hj, hje⟩ hnoc
    have hsome : (st.jobs.find? (fun j => j._id == oid)).isSome :=
      List.find?_isSome.mpr ⟨j, hj, by simpa using hje⟩
    obtain ⟨j1, hj1⟩ := Option.isSome_iff_exists.mp hsome
    have hfc : st.candidates.find? (fun c => c.email == candidate_email) = none :=
      List.find?_eq_none.mpr (fun c hc => by simp [hnoc c hc])
    simp [apply_for_job, hp, hj1, hfc]
  · rintro ⟨j, hj, hje⟩ ⟨c, hc, hce⟩
    have hjs : (st.jobs.find? (fun j => j._id == oid)).isSome :=
      List.find?_isSome.mpr ⟨j, hj, by simpa using hje⟩
    obtain ⟨j1, hj1⟩ := Option.isSome_iff_exists.mp hjs
    have hcs : (st.candidates.find? (fun c => c.email == candidate_email)).isSome :=
      List.find?_isSome.mpr ⟨c, hc, by simpa using hce⟩
    obtain ⟨c1, hc1⟩ := Option.isSome_iff_exists.mp hcs
    simp [apply_for_job, hp, hj1, hc1]

theorem apply_not_found_or_insert_witness :
    parseObjectId zeroId = some 0 ∧
      apply_for_job emptyState zeroId "a@x.com" =
        .error (.notFound "Job not found") :=
  ⟨by decide,
   (apply_not_found_or_insert emptyState zeroId "a@x.com" 0 (by decide)).1
     (by simp [emptyState])⟩

/-- C8: Apply deduplicates nothing — a second apply with the same
`(job_id, candidate_email)` pair after a successful one succeeds again, and
the store then holds the original applications plus two distinct
application documents for that pair. -/
theorem apply_no_dedup (st : DBState) (job_id candidate_email : String)
    (r1 : String) (st1 : DBState)
    (h : apply_for_job st job_id candidate_email = .ok (r1, st1)) :
    ∃ oid, parseObjectId job_id = some oid ∧
      apply_for_job st1 job_id candidate_email =
        .ok ("Job application successful",
          { st1 with
              applications := st1.applications ++
                [{ _id := st1.nextId, job_id := oid,
                   candidate_email := candidate_email }],
              nextId := st1.nextId + 1 }) ∧
      st1.applications ++
          [{ _id := st1.nextId, job_id := oid,
             candidate_email := candidate_email }] =
        st.applications ++
          [{ _id := st.nextId, job_id := oid,
             candidate_email := candidate_email },
           { _id := st.nextId + 1, job_id := oid,
             candidate_email := candidate_email }] ∧
      ({ _id := st.nextId, job_id := oid,
         candidate_email := candidate_email } : ApplicationDoc) ≠
        { _id := st.nextId + 1, job_id := oid,
          candidate_email := candidate_email } := by
  cases hp : parseObjectId job_id with
  | none => simp [apply_for_job, hp] at h
  | some oid =>
    cases hj : st.jobs.find? (fun j => j._id == oid) with
    | none => simp [apply_for_job, hp, hj] at h
    | some j =>
      cases hc : st.candidates.find? (fun c => c.email == candidate_email) with
      | none => simp [apply_for_job, hp, hj, hc] at h
      | some c =>
        rw [apply_for_job, hp] at h
        simp only [hj, hc, Except.ok.injEq, Prod.mk.injEq] at h
        obtain ⟨hr, hst⟩ := h
        subst hst
        refine ⟨oid, rfl, ?_, by simp, by simp⟩
        simp [apply_for_job, hp, hj, hc]

theorem apply_no_dedup_witness :
    ∃ oid, parseObjectId zeroId = some oid ∧
      apply_for_job stApplied zeroId "a@x.com" =
        .ok ("Job application successful",
          { stApplied with
              applications := stApplied.applications ++
                [{ _id := stApplied.nextId, job_id := oid,
                   candidate_email := "a@x.com" }],
              nextId := stApplied.nextId + 1 }) ∧
      stApplied.applications ++
          [{ _id := stApplied.nextId, job_id := oid,
             candidate_email := "a@x.com" }] =
        stJobAndCand.applications ++
          [{ _id := stJobAndCand.nextId, job_id := oid,
             candidate_email := "a@x.com" },
           { _id := stJobAndCand.nextId + 1, job_id := oid,
             candidate_email := "a@x.com" }] ∧
      ({ _id := stJobAndCand.nextId, job_id := oid,
         candidate_email := "a@x.com" } : ApplicationDoc) ≠
        { _id := stJobAndCand.nextId + 1, job_id := oid,
          candidate_email := "a@x.com" } :=
  apply_no_dedup stJobAndCand zeroId "a@x.com" "Job application successful"
    stApplied rfl

/-- C6 counterexample: `ViewResumes` reads only the first 100 candidate
documents, so in a store of 101 candidates where only the 101st has a
resume, that candidate gets no entry even though its `resume_path` is
set — refuting the claim as stated over every store state. -/
theorem view_resumes_misses_candidate :
    ¬ (∀ c ∈ capState.candidates, c.resume_path.isSome →
        (c.email, c.resume_path) ∈ view_resumes capState) := by
  intro h
  have hmem : cWithResume ∈ capState.candidates := by simp [capState]
  have hin := h cWithResume hmem (by simp [cWithResume])
  have hempty : view_resumes capState = [] := by decide
  rw [hempty] at hin
  exact absurd hin (List.not_mem_nil _)

/-- C6 (amended to the first 100 documents the endpoint reads):
`ViewResumes` returns a `(email, resume_path)` entry for every candidate
among the first 100 candidate documents that has a `resume_path` field set,
and every returned entry comes from such a candidate. -/
theorem view_resumes_entries (st : DBState) :
    (∀ c ∈ st.candidates.take 100, c.resume_path.isSome →
      (c.email, c.resume_path) ∈ view_resumes st) ∧
    (∀ p ∈ view_resumes st, ∃ c, c ∈ st.candidates.take 100 ∧
      c.resume_path.isSome ∧ p = (c.email, c.resume_path)) := by
  constructor
  · intro c hc hr
    simp only [view_resumes, List.mem_map, List.mem_filter]
    exact ⟨c, ⟨hc, hr⟩, rfl⟩
  · intro p hp
    simp only [view_resumes, List.mem_map, List.mem_filter] at hp
    obtain ⟨c, ⟨hc, hr⟩, hpe⟩ := hp
    exact ⟨c, hc, hr, hpe.symm⟩

theorem view_resumes_entries_witness :
    ("r@x.com", some "resumes/cv.pdf") ∈ view_resumes stOneResume :=
  (view_resumes_entries stOneResume).1 cWithResume
    (by simp [stOneResume]) (by simp [cWithResume])

/-- C9: in every reachable store state no candidate document carries a
plaintext `password` field — signup inserts the document with the plaintext
field excluded and hashes the password into `hashed_password`, and no other
operation writes a password field. -/
theorem reachable_no_plaintext (st : DBState) (h : Reachable st) :
    NoPlaintextPassword st := by
  induction h with
  | init st0 h0 =>
    intro c hc
    rw [h0] at hc
    exact absurd hc (List.not_mem_nil c)
  | step st0 st1 hr hs ih =>
    cases hs with
    | ofSignup cand r stn heq =>
      obtain ⟨d, hd, hcs⟩ := signup_ok_inv _ _ _ _ heq
      intro c hc
      rw [hcs] at hc
      rcases List.mem_append.mp hc with h1 | h2
      · exact ih c h1
      · rw [List.mem_singleton.mp h2]
        exact hd
    | ofApply jid em r stn heq =>
      intro c hc
      rw [apply_ok_inv _ _ _ _ _ heq] at hc
      exact ih c hc
    | ofUpload cid fn r stn heq =>
      intro c hc
      obtain ⟨c0, hc0, hpw⟩ := upload_ok_inv _ _ _ _ _ heq c hc
      rw [hpw]
      exact ih c0 hc0
    | ofPostJob job =>
      intro c hc
      exact ih c hc
    | ofUpdateJob jid job r stn heq =>
      intro c hc
      rw [update_job_ok_inv _ _ _ _ _ heq] at hc
      exact ih c hc
    | ofUpdateStatus jid status r stn heq =>
      intro c hc
      rw [update_status_ok_inv _ _ _ _ _ heq] at hc
      exact ih c hc

theorem reachable_no_plaintext_witness :
    NoPlaintextPassword stAfterSignup :=
  reachable_no_plaintext stAfterSignup
    (Reachable.step emptyState stAfterSignup
      (Reachable.init emptyState rfl)
      (Step.ofSignup emptyState candA
        { id := 0, email := "a@x.com", name := "A" } stAfterSignup rfl))

end Recruitment
